import Mathlib

/-!
Shallow embedding of the halo2-rsa wasm binding
(src/web-client/public/build/wasm.rs): the three PKCS#1 v1.5 circuit
shapes, witness-value generation, and the prove/verify pipeline control
flow.  The external halo2 backend operations (parameter/key parsing, the
mock prover self-check, proof creation and verification) are abstracted
as an explicit record of operations; everything this repository's
binding code itself does is embedded directly.
-/

namespace Halo2Rsa

/-- Little-endian byte interpretation, as performed by
num-bigint's from_bytes_le: byte 0 is least significant. -/
def fromBytesLE (bs : List Nat) : Nat :=
  bs.foldr (fun b acc => b + 256 * acc) 0

/-- Big-endian byte interpretation: byte 0 is most significant. -/
def fromBytesBE (bs : List Nat) : Nat :=
  bs.foldl (fun acc b => 256 * acc + b) 0

/-- Limb decomposition of a nonnegative integer into a fixed number of
limbs of the given bit width, least-significant limb first, as performed
by maingate's decompose_big. -/
def decompose_big (value numLimbs limbWidth : Nat) : List Nat :=
  (List.range numLimbs).map (fun i => value / 2 ^ (i * limbWidth) % 2 ^ limbWidth)

/-- Little-endian digit expansion in the given radix, as performed by
num-bigint's to_radix_le; fuel-indexed so the recursion is structural
(fuel at least the value itself always suffices). -/
def toRadixLEGo (radix : Nat) : Nat → Nat → List Nat
  | 0, _ => []
  | fuel + 1, n => if n = 0 then [] else n % radix :: toRadixLEGo radix fuel (n / radix)

/-- Little-endian digit expansion of a natural number in the given radix. -/
def toRadixLE (radix n : Nat) : List Nat :=
  toRadixLEGo radix n n

/-- Recomposition of a little-endian digit list in the given radix, as
performed by num-bigint's from_radix_le. -/
def fromRadixLE (radix : Nat) (ds : List Nat) : Nat :=
  ds.foldr (fun d acc => d + radix * acc) 0

/-- Limb width used by the binding (const LIMB_WIDTH in wasm.rs). -/
def LIMB_WIDTH : Nat := 64

/-- Fixed RSA public exponent used by the binding (const DEFAULT_E in
wasm.rs). -/
def DEFAULT_E : Nat := 65537

/-- Unassigned limb array crossing into the circuit (the repository's
UnassignedInteger, reduced to its limb values). -/
structure UnassignedInteger where
  limbs : List Nat
deriving DecidableEq

/-- RSA public exponent as used by the repository's RSAPubE type:
either a fixed constant known at circuit-construction time or a
variable circuit value. -/
inductive RSAPubE where
  | Fix : Nat → RSAPubE
  | Var : UnassignedInteger → RSAPubE
deriving DecidableEq

/-- RSA public key fed to the circuit: modulus limbs plus exponent. -/
structure RSAPublicKey where
  n : UnassignedInteger
  e : RSAPubE
deriving DecidableEq

/-- RSA signature fed to the circuit: a limb array. -/
structure RSASignature where
  value : UnassignedInteger
deriving DecidableEq

/-- Embedding of _gen_circuit_values (wasm.rs lines 212-236): converts
the caller-supplied public key (modulus value n and exponent value e as
parsed from the serialized RsaPublicKey), message bytes, and signature
bytes into the circuit's native witness values.  The signature byte
buffer is reversed and then read little-endian; the modulus is
round-tripped through radix-16 digits; the exponent is fixed to
DEFAULT_E and the caller's exponent value is never read. -/
def genCircuitValues (limbWidth bitsLen defaultE : Nat)
    (publicKeyN publicKeyE : Nat) (msg signature : List Nat) :
    RSAPublicKey × RSASignature × List Nat :=
  let numLimbs := bitsLen / limbWidth
  let signatureRev := signature.reverse
  let signBig := fromBytesLE signatureRev
  let signLimbs := decompose_big signBig numLimbs limbWidth
  let sig := RSASignature.mk (UnassignedInteger.mk signLimbs)
  let nBig := fromRadixLE 16 (toRadixLE 16 publicKeyN)
  let nLimbs := decompose_big nBig numLimbs limbWidth
  let nUnassigned := UnassignedInteger.mk nLimbs
  let eFix := RSAPubE.Fix defaultE
  (RSAPublicKey.mk nUnassigned eFix, sig, msg)

/-- Modelled from the spec: the impl_pkcs1v15_basic_circuit macro (code
of this repository outside src/) fixes per shape a row-count exponent k
(circuit capacity 2 ^ k), a modulus bit-length, a supported message
byte-length, and a hash-in-circuit flag; the three instantiations'
argument tuples are taken verbatim from wasm.rs lines 51-82. -/
structure CircuitShape where
  k : Nat
  bitsLen : Nat
  msgLen : Nat
  sha2 : Bool
deriving DecidableEq

/-- Shape instantiated at wasm.rs lines 51-60. -/
def shape_1024_64 : CircuitShape := ⟨17, 1024, 64, true⟩

/-- Shape instantiated at wasm.rs lines 62-71. -/
def shape_1024_128 : CircuitShape := ⟨18, 1024, 128, true⟩

/-- Shape instantiated at wasm.rs lines 73-82. -/
def shape_1024_1024 : CircuitShape := ⟨20, 1024, 1024, true⟩

/-- The circuit shapes instantiated in wasm.rs (a fourth, no-sha2
variant is commented out in the source and hence not supported). -/
def supportedShapes : List CircuitShape :=
  [shape_1024_64, shape_1024_128, shape_1024_1024]

/-- A concrete Pkcs1v15 circuit instance: its shape together with the
private witness values (public key, signature, message bytes) stored in
the circuit struct fields of the generated circuit types. -/
structure Pkcs1v15Circuit where
  shape : CircuitShape
  publicKey : RSAPublicKey
  signature : RSASignature
  msg : List Nat
deriving DecidableEq

/-- The instance-column values handed to the mock prover, the backend
prover, and the verifier: one instance column containing no values
(vec![vec![]] at wasm.rs line 246 and the nested empty slices at lines
258 and 283). -/
def publicInstances : List (List Nat) := [[]]

/-- Failure raised by the prove path: every failing unwrap or explicit
panic in _prove_pkcs1v15_circuit, tagged by the step that raised it and
carrying its diagnostic. -/
inductive ProveError where
  | parse : String → ProveError
  | selfCheck : String → ProveError
  | backend : String → ProveError
deriving DecidableEq

/-- Outcome of a verify entry point: either the boolean the function
returns, or the panic raised by a failing unwrap while parsing the
parameter, verifying-key, or proof buffer. -/
inductive VerifyOutcome where
  | returned : Bool → VerifyOutcome
  | parsePanic : String → VerifyOutcome
deriving DecidableEq

/-- Abstract interface to the external halo2 operations invoked by the
binding (parameter/key deserialization, the MockProver self-check,
create_proof, verify_proof, and serde proof-buffer parsing).  P, K, V,
M, Pr stand for the parsed parameters, proving key, verifying key,
mock-prover state, and proof transcript.  The binding's own control
flow is embedded over any such record. -/
structure Backend (P K V M Pr : Type) where
  readParams : List Nat → Except String P
  readPK : List Nat → Except String K
  readVK : List Nat → Except String V
  mockProverRun : Nat → Pkcs1v15Circuit → List (List Nat) → Except String M
  mockVerify : M → Except String Unit
  createProof : P → K → Pkcs1v15Circuit → List (List Nat) → Nat → Except String Pr
  verifyProof : P → V → List (List Nat) → List Nat → Bool
  parseProofBytes : List Nat → Except String (List Nat)

instance {ε α : Type} [DecidableEq ε] [DecidableEq α] : DecidableEq (Except ε α) := fun x y =>
  match x, y with
  | .ok a, .ok b => decidable_of_iff (a = b) (by simp)
  | .error a, .error b => decidable_of_iff (a = b) (by simp)
  | .ok _, .error _ => isFalse (by simp)
  | .error _, .ok _ => isFalse (by simp)

/-- Observable trace of one _prove_pkcs1v15_circuit call: the row
exponent and instance values passed to the mock-prover self-check (none
when the call aborted before reaching it), whether the backend prover
was invoked and with which instance values, and the final outcome. -/
structure ProveResult (Pr : Type) where
  selfCheckK : Option Nat
  selfCheckInstances : Option (List (List Nat))
  backendInvoked : Bool
  backendInstances : Option (List (List Nat))
  outcome : Except ProveError Pr
deriving DecidableEq

/-- Embedding of _prove_pkcs1v15_circuit (wasm.rs lines 238-265): parse
the parameter and proving-key buffers (each failing unwrap panics),
run MockProver::run with the literal row exponent 17 and the empty
instance values, unwrap its result and the subsequent self-verification
(a failure panics with the diagnostic before the backend is touched),
then call create_proof with per-call entropy (OsRng) and return the
finalized transcript. -/
def provePkcs1v15Circuit {P K V M Pr : Type} (B : Backend P K V M Pr)
    (entropy : Nat) (params pk : List Nat) (circuit : Pkcs1v15Circuit) :
    ProveResult Pr :=
  match B.readParams params with
  | .error e => ⟨none, none, false, none, .error (.parse e)⟩
  | .ok p =>
    match B.readPK pk with
    | .error e => ⟨none, none, false, none, .error (.parse e)⟩
    | .ok k =>
      match B.mockProverRun 17 circuit publicInstances with
      | .error e => ⟨some 17, some publicInstances, false, none, .error (.selfCheck e)⟩
      | .ok prover =>
        match B.mockVerify prover with
        | .error e => ⟨some 17, some publicInstances, false, none, .error (.selfCheck e)⟩
        | .ok _ =>
          match B.createProof p k circuit publicInstances entropy with
          | .error e => ⟨some 17, some publicInstances, true, some publicInstances, .error (.backend e)⟩
          | .ok proof => ⟨some 17, some publicInstances, true, some publicInstances, .ok proof⟩

/-- Embedding of _verify_pkcs1v15_circuit (wasm.rs lines 267-285):
parse the parameter, verifying-key, and proof buffers (each failing
unwrap panics), then return the boolean is_ok of verify_proof on the
empty instance values. -/
def verifyPkcs1v15Circuit {P K V M Pr : Type} (B : Backend P K V M Pr)
    (params vk proof : List Nat) : VerifyOutcome :=
  match B.readParams params with
  | .error e => .parsePanic e
  | .ok p =>
    match B.readVK vk with
    | .error e => .parsePanic e
    | .ok v =>
      match B.parseProofBytes proof with
      | .error e => .parsePanic e
      | .ok pr => .returned (B.verifyProof p v publicInstances pr)

/-- Circuit value constructed by prove_pkcs1v15_1024_64_circuit
(wasm.rs lines 135-152) before handing off to _prove_pkcs1v15_circuit. -/
def pkcs1v15_1024_64_circuit_of (publicKeyN publicKeyE : Nat)
    (msg signature : List Nat) : Pkcs1v15Circuit :=
  let v := genCircuitValues LIMB_WIDTH 1024 DEFAULT_E publicKeyN publicKeyE msg signature
  ⟨shape_1024_64, v.1, v.2.1, v.2.2⟩

/-- Circuit value constructed by prove_pkcs1v15_1024_128_circuit
(wasm.rs lines 161-178). -/
def pkcs1v15_1024_128_circuit_of (publicKeyN publicKeyE : Nat)
    (msg signature : List Nat) : Pkcs1v15Circuit :=
  let v := genCircuitValues LIMB_WIDTH 1024 DEFAULT_E publicKeyN publicKeyE msg signature
  ⟨shape_1024_128, v.1, v.2.1, v.2.2⟩

/-- Circuit value constructed by prove_pkcs1v15_1024_1024_circuit
(wasm.rs lines 187-204). -/
def pkcs1v15_1024_1024_circuit_of (publicKeyN publicKeyE : Nat)
    (msg signature : List Nat) : Pkcs1v15Circuit :=
  let v := genCircuitValues LIMB_WIDTH 1024 DEFAULT_E publicKeyN publicKeyE msg signature
  ⟨shape_1024_1024, v.1, v.2.1, v.2.2⟩

/-- Embedding of the prove_pkcs1v15_1024_64_circuit entry point. -/
def prove_pkcs1v15_1024_64_circuit {P K V M Pr : Type} (B : Backend P K V M Pr)
    (entropy : Nat) (params pk : List Nat) (publicKeyN publicKeyE : Nat)
    (msg signature : List Nat) : ProveResult Pr :=
  provePkcs1v15Circuit B entropy params pk
    (pkcs1v15_1024_64_circuit_of publicKeyN publicKeyE msg signature)

/-- Embedding of the prove_pkcs1v15_1024_128_circuit entry point. -/
def prove_pkcs1v15_1024_128_circuit {P K V M Pr : Type} (B : Backend P K V M Pr)
    (entropy : Nat) (params pk : List Nat) (publicKeyN publicKeyE : Nat)
    (msg signature : List Nat) : ProveResult Pr :=
  provePkcs1v15Circuit B entropy params pk
    (pkcs1v15_1024_128_circuit_of publicKeyN publicKeyE msg signature)

/-- Embedding of the prove_pkcs1v15_1024_1024_circuit entry point. -/
def prove_pkcs1v15_1024_1024_circuit {P K V M Pr : Type} (B : Backend P K V M Pr)
    (entropy : Nat) (params pk : List Nat) (publicKeyN publicKeyE : Nat)
    (msg signature : List Nat) : ProveResult Pr :=
  provePkcs1v15Circuit B entropy params pk
    (pkcs1v15_1024_1024_circuit_of publicKeyN publicKeyE msg signature)

/-- Embedding of the verify_pkcs1v15_1024_64_circuit entry point
(wasm.rs lines 154-158): forwards to _verify_pkcs1v15_circuit; the
shape enters only through the verifying-key deserialization the backend
record performs. -/
def verify_pkcs1v15_1024_64_circuit {P K V M Pr : Type} (B : Backend P K V M Pr)
    (params vk proof : List Nat) : VerifyOutcome :=
  verifyPkcs1v15Circuit B params vk proof

/-- Embedding of the verify_pkcs1v15_1024_128_circuit entry point
(wasm.rs lines 180-184). -/
def verify_pkcs1v15_1024_128_circuit {P K V M Pr : Type} (B : Backend P K V M Pr)
    (params vk proof : List Nat) : VerifyOutcome :=
  verifyPkcs1v15Circuit B params vk proof

/-- Embedding of the verify_pkcs1v15_1024_1024_circuit entry point
(wasm.rs lines 206-210). -/
def verify_pkcs1v15_1024_1024_circuit {P K V M Pr : Type} (B : Backend P K V M Pr)
    (params vk proof : List Nat) : VerifyOutcome :=
  verifyPkcs1v15Circuit B params vk proof

/-- Concrete backend instantiation in which every operation succeeds,
buffer parsing is trivial, and the proof transcript is the per-call
entropy value; used to evaluate the pipeline at concrete inputs. -/
def unitOkBackend : Backend Unit Unit Unit Unit Nat where
  readParams := fun _ => Except.ok ()
  readPK := fun _ => Except.ok ()
  readVK := fun _ => Except.ok ()
  mockProverRun := fun _ _ _ => Except.ok ()
  mockVerify := fun _ => Except.ok ()
  createProof := fun _ _ _ _ entropy => Except.ok entropy
  verifyProof := fun _ _ _ _ => false
  parseProofBytes := fun bs => Except.ok bs

/-- Concrete backend instantiation whose mock-prover self-verification
reports an unsatisfied constraint; used to evaluate the fail-fast path
at concrete inputs. -/
def unitFailBackend : Backend Unit Unit Unit Unit Nat where
  readParams := fun _ => Except.ok ()
  readPK := fun _ => Except.ok ()
  readVK := fun _ => Except.ok ()
  mockProverRun := fun _ _ _ => Except.ok ()
  mockVerify := fun _ => Except.error "unsatisfied constraint"
  createProof := fun _ _ _ _ entropy => Except.ok entropy
  verifyProof := fun _ _ _ _ => false
  parseProofBytes := fun bs => Except.ok bs

/-- Concrete circuit value for evaluating the pipeline. -/
def exampleCircuit : Pkcs1v15Circuit := pkcs1v15_1024_64_circuit_of 0 0 [] []

theorem fromBytesLE_reverse (bs : List Nat) :
    fromBytesLE bs.reverse = fromBytesBE bs := by
  have h : (fun (b acc : Nat) => b + 256 * acc)
      = fun b acc => 256 * acc + b := by
    funext b acc
    exact Nat.add_comm b (256 * acc)
  simp [fromBytesLE, fromBytesBE, List.foldr_reverse, h]

theorem fromRadixLE_toRadixLEGo (radix : Nat) (hr : 1 < radix) :
    ∀ fuel n, n ≤ fuel → fromRadixLE radix (toRadixLEGo radix fuel n) = n := by
  intro fuel
  induction fuel with
  | zero =>
    intro n hn
    have h0 : n = 0 := Nat.le_zero.mp hn
    subst h0
    simp [toRadixLEGo, fromRadixLE]
  | succ f ih =>
    intro n hn
    by_cases h0 : n = 0
    · subst h0
      simp [toRadixLEGo, fromRadixLE]
    · have hstep : toRadixLEGo radix (f + 1) n
          = n % radix :: toRadixLEGo radix f (n / radix) := by
        simp [toRadixLEGo, h0]
      have hdiv : n / radix ≤ f := by
        have hlt : n / radix < n := Nat.div_lt_self (Nat.pos_of_ne_zero h0) hr
        omega
      rw [hstep]
      show n % radix + radix * fromRadixLE radix (toRadixLEGo radix f (n / radix)) = n
      rw [ih (n / radix) hdiv]
      exact Nat.mod_add_div n radix

theorem fromRadixLE_toRadixLE (radix n : Nat) (hr : 1 < radix) :
    fromRadixLE radix (toRadixLE radix n) = n :=
  fromRadixLE_toRadixLEGo radix hr n n (Nat.le_refl n)

theorem prove_parseParams_fail {P K V M Pr : Type} {B : Backend P K V M Pr}
    {entropy : Nat} {params pk : List Nat} {c : Pkcs1v15Circuit} {e : String}
    (hp : B.readParams params = Except.error e) :
    provePkcs1v15Circuit B entropy params pk c
      = ⟨none, none, false, none, Except.error (ProveError.parse e)⟩ := by
  simp [provePkcs1v15Circuit, hp]

theorem prove_parsePK_fail {P K V M Pr : Type} {B : Backend P K V M Pr}
    {entropy : Nat} {params pk : List Nat} {c : Pkcs1v15Circuit} {p : P} {e : String}
    (hp : B.readParams params = Except.ok p)
    (hk : B.readPK pk = Except.error e) :
    provePkcs1v15Circuit B entropy params pk c
      = ⟨none, none, false, none, Except.error (ProveError.parse e)⟩ := by
  simp [provePkcs1v15Circuit, hp, hk]

theorem prove_mockRun_fail {P K V M Pr : Type} {B : Backend P K V M Pr}
    {entropy : Nat} {params pk : List Nat} {c : Pkcs1v15Circuit} {p : P} {k : K} {e : String}
    (hp : B.readParams params = Except.ok p)
    (hk : B.readPK pk = Except.ok k)
    (hm : B.mockProverRun 17 c publicInstances = Except.error e) :
    provePkcs1v15Circuit B entropy params pk c
      = ⟨some 17, some publicInstances, false, none, Except.error (ProveError.selfCheck e)⟩ := by
  simp [provePkcs1v15Circuit, hp, hk, hm]

theorem prove_mockVerify_fail {P K V M Pr : Type} {B : Backend P K V M Pr}
    {entropy : Nat} {params pk : List Nat} {c : Pkcs1v15Circuit} {p : P} {k : K}
    {m : M} {e : String}
    (hp : B.readParams params = Except.ok p)
    (hk : B.readPK pk = Except.ok k)
    (hm : B.mockProverRun 17 c publicInstances = Except.ok m)
    (hv : B.mockVerify m = Except.error e) :
    provePkcs1v15Circuit B entropy params pk c
      = ⟨some 17, some publicInstances, false, none, Except.error (ProveError.selfCheck e)⟩ := by
  simp [provePkcs1v15Circuit, hp, hk, hm, hv]

theorem prove_selfCheck_ok {P K V M Pr : Type} {B : Backend P K V M Pr}
    {entropy : Nat} {params pk : List Nat} {c : Pkcs1v15Circuit} {p : P} {k : K} {m : M}
    (hp : B.readParams params = Except.ok p)
    (hk : B.readPK pk = Except.ok k)
    (hm : B.mockProverRun 17 c publicInstances = Except.ok m)
    (hv : B.mockVerify m = Except.ok ()) :
    provePkcs1v15Circuit B entropy params pk c
      = ⟨some 17, some publicInstances, true, some publicInstances,
         match B.createProof p k c publicInstances entropy with
         | Except.ok pr => Except.ok pr
         | Except.error e => Except.error (ProveError.backend e)⟩ := by
  cases hc : B.createProof p k c publicInstances entropy with
  | ok pr => simp [provePkcs1v15Circuit, hp, hk, hm, hv, hc]
  | error e => simp [provePkcs1v15Circuit, hp, hk, hm, hv, hc]

theorem prove_selfCheckK_cases {P K V M Pr : Type} (B : Backend P K V M Pr)
    (entropy : Nat) (params pk : List Nat) (c : Pkcs1v15Circuit) :
    (provePkcs1v15Circuit B entropy params pk c).selfCheckK = none
    ∨ (provePkcs1v15Circuit B entropy params pk c).selfCheckK = some 17 := by
  rcases hp : B.readParams params with e | p
  · rw [prove_parseParams_fail hp]
    exact Or.inl rfl
  rcases hk : B.readPK pk with e | k
  · rw [prove_parsePK_fail hp hk]
    exact Or.inl rfl
  rcases hm : B.mockProverRun 17 c publicInstances with e | m
  · rw [prove_mockRun_fail hp hk hm]
    exact Or.inr rfl
  rcases hv : B.mockVerify m with e | u
  · rw [prove_mockVerify_fail hp hk hm hv]
    exact Or.inr rfl
  · cases u
    rw [prove_selfCheck_ok hp hk hm hv]
    exact Or.inr rfl

theorem prove_selfCheckInstances_cases {P K V M Pr : Type} (B : Backend P K V M Pr)
    (entropy : Nat) (params pk : List Nat) (c : Pkcs1v15Circuit) :
    (provePkcs1v15Circuit B entropy params pk c).selfCheckInstances = none
    ∨ (provePkcs1v15Circuit B entropy params pk c).selfCheckInstances = some publicInstances := by
  rcases hp : B.readParams params with e | p
  · rw [prove_parseParams_fail hp]
    exact Or.inl rfl
  rcases hk : B.readPK pk with e | k
  · rw [prove_parsePK_fail hp hk]
    exact Or.inl rfl
  rcases hm : B.mockProverRun 17 c publicInstances with e | m
  · rw [prove_mockRun_fail hp hk hm]
    exact Or.inr rfl
  rcases hv : B.mockVerify m with e | u
  · rw [prove_mockVerify_fail hp hk hm hv]
    exact Or.inr rfl
  · cases u
    rw [prove_selfCheck_ok hp hk hm hv]
    exact Or.inr rfl

theorem prove_backendInstances_cases {P K V M Pr : Type} (B : Backend P K V M Pr)
    (entropy : Nat) (params pk : List Nat) (c : Pkcs1v15Circuit) :
    (provePkcs1v15Circuit B entropy params pk c).backendInstances = none
    ∨ (provePkcs1v15Circuit B entropy params pk c).backendInstances = some publicInstances := by
  rcases hp : B.readParams params with e | p
  · rw [prove_parseParams_fail hp]
    exact Or.inl rfl
  rcases hk : B.readPK pk with e | k
  · rw [prove_parsePK_fail hp hk]
    exact Or.inl rfl
  rcases hm : B.mockProverRun 17 c publicInstances with e | m
  · rw [prove_mockRun_fail hp hk hm]
    exact Or.inl rfl
  rcases hv : B.mockVerify m with e | u
  · rw [prove_mockVerify_fail hp hk hm hv]
    exact Or.inl rfl
  · cases u
    rw [prove_selfCheck_ok hp hk hm hv]
    exact Or.inr rfl

/-- Claim C1: every prove entry point self-verifies the satisfying
assignment with the mock prover before the backend prover is invoked
(the backend runs only after MockProver.run and its verification both
succeed), and when the supplied witness fails the self-check, prove
aborts with the diagnostic of the failing step before backend
invocation and never emits a proof. -/
theorem prove_self_check_before_backend {P K V M Pr : Type}
    (B : Backend P K V M Pr) (entropy : Nat) (params pk : List Nat)
    (c : Pkcs1v15Circuit) :
    ((provePkcs1v15Circuit B entropy params pk c).backendInvoked = false
      ∨ ∃ m, B.mockProverRun 17 c publicInstances = Except.ok m
          ∧ B.mockVerify m = Except.ok ())
    ∧ ∀ (e : String) (p : P) (k : K),
        B.readParams params = Except.ok p →
        B.readPK pk = Except.ok k →
        (B.mockProverRun 17 c publicInstances = Except.error e
          ∨ ∃ m, B.mockProverRun 17 c publicInstances = Except.ok m
              ∧ B.mockVerify m = Except.error e) →
        (provePkcs1v15Circuit B entropy params pk c).outcome
            = Except.error (ProveError.selfCheck e)
        ∧ (provePkcs1v15Circuit B entropy params pk c).backendInvoked = false := by
  constructor
  · rcases hp : B.readParams params with e | p
    · rw [prove_parseParams_fail hp]
      exact Or.inl rfl
    rcases hk : B.readPK pk with e | k
    · rw [prove_parsePK_fail hp hk]
      exact Or.inl rfl
    rcases hm : B.mockProverRun 17 c publicInstances with e | m
    · rw [prove_mockRun_fail hp hk hm]
      exact Or.inl rfl
    rcases hv : B.mockVerify m with e | u
    · rw [prove_mockVerify_fail hp hk hm hv]
      exact Or.inl rfl
    · cases u
      exact Or.inr ⟨m, rfl, hv⟩
  · intro e p k hp hk hsc
    rcases hsc with hm | ⟨m, hm, hv⟩
    · rw [prove_mockRun_fail hp hk hm]
      exact ⟨rfl, rfl⟩
    · rw [prove_mockVerify_fail hp hk hm hv]
      exact ⟨rfl, rfl⟩

/-- Witness for C1: on a backend whose self-verification reports an
unsatisfied constraint, prove aborts with that diagnostic and the
backend prover is never invoked. -/
theorem prove_self_check_before_backend_witness :
    (provePkcs1v15Circuit unitFailBackend 0 [] [] exampleCircuit).outcome
      = Except.error (ProveError.selfCheck "unsatisfied constraint")
    ∧ (provePkcs1v15Circuit unitFailBackend 0 [] [] exampleCircuit).backendInvoked = false :=
  (prove_self_check_before_backend unitFailBackend 0 [] [] exampleCircuit).2
    "unsatisfied constraint" () () rfl rfl (Or.inr ⟨(), rfl, rfl⟩)

/-- Claim C2: when the parameter, verifying-key, and proof buffers all
parse, a verify entry point returns exactly the backend verifier's
boolean (false for a cryptographically invalid proof, never a throw);
when any buffer fails to parse, it raises that parse panic instead of
returning a boolean; the three shape-specific entry points coincide
with the generic one. -/
theorem verify_false_on_invalid_panic_on_malformed {P K V M Pr : Type}
    (B : Backend P K V M Pr) (params vk proof : List Nat) :
    (match B.readParams params, B.readVK vk, B.parseProofBytes proof with
     | Except.ok p, Except.ok v, Except.ok pr =>
        verifyPkcs1v15Circuit B params vk proof
          = VerifyOutcome.returned (B.verifyProof p v publicInstances pr)
     | Except.error e, _, _ =>
        verifyPkcs1v15Circuit B params vk proof = VerifyOutcome.parsePanic e
     | Except.ok _, Except.error e, _ =>
        verifyPkcs1v15Circuit B params vk proof = VerifyOutcome.parsePanic e
     | Except.ok _, Except.ok _, Except.error e =>
        verifyPkcs1v15Circuit B params vk proof = VerifyOutcome.parsePanic e)
    ∧ verify_pkcs1v15_1024_64_circuit B params vk proof
        = verifyPkcs1v15Circuit B params vk proof
    ∧ verify_pkcs1v15_1024_128_circuit B params vk proof
        = verifyPkcs1v15Circuit B params vk proof
    ∧ verify_pkcs1v15_1024_1024_circuit B params vk proof
        = verifyPkcs1v15Circuit B params vk proof := by
  refine ⟨?_, rfl, rfl, rfl⟩
  rcases hp : B.readParams params with e | p
  · simp [verifyPkcs1v15Circuit, hp]
  rcases hv : B.readVK vk with e | v
  · simp [verifyPkcs1v15Circuit, hp, hv]
  rcases hpr : B.parseProofBytes proof with e | pr
  · simp [verifyPkcs1v15Circuit, hp, hv, hpr]
  · simp [verifyPkcs1v15Circuit, hp, hv, hpr]

/-- Claim C3 counterexample: for the two-byte signature buffer [1, 0]
the limbs fed to the circuit are not the limb decomposition of the
little-endian interpretation of the buffer (the buffer is reversed and
then read little-endian, i.e. interpreted big-endian). -/
theorem signature_bytes_not_little_endian :
    (genCircuitValues LIMB_WIDTH 1024 DEFAULT_E 0 0 [] [1, 0]).2.1.value.limbs
      ≠ decompose_big (fromBytesLE [1, 0]) 16 64 := by
  decide

/-- Claim C3 as amended: the signature byte buffer crossing into a
prove entry point is interpreted big-endian (most-significant byte
first): the integer fed to limb decomposition equals the big-endian
interpretation of the supplied bytes; the modulus does not cross as a
raw byte buffer, and its integer value from the parsed public key is
fed to limb decomposition unchanged; the message bytes pass through
untouched. -/
theorem signature_bytes_big_endian (n e : Nat) (msg sig : List Nat) :
    (genCircuitValues LIMB_WIDTH 1024 DEFAULT_E n e msg sig).2.1.value.limbs
      = decompose_big (fromBytesBE sig) 16 64
    ∧ (genCircuitValues LIMB_WIDTH 1024 DEFAULT_E n e msg sig).1.n.limbs
      = decompose_big n 16 64
    ∧ (genCircuitValues LIMB_WIDTH 1024 DEFAULT_E n e msg sig).2.2 = msg := by
  refine ⟨?_, ?_, rfl⟩
  · show decompose_big (fromBytesLE sig.reverse) (1024 / LIMB_WIDTH) LIMB_WIDTH
        = decompose_big (fromBytesBE sig) 16 64
    rw [fromBytesLE_reverse]
    rfl
  · show decompose_big (fromRadixLE 16 (toRadixLE 16 n)) (1024 / LIMB_WIDTH) LIMB_WIDTH
        = decompose_big n 16 64
    rw [fromRadixLE_toRadixLE 16 n (by decide)]
    rfl

/-- Claim C4: the mock-prover self-check of every prove entry point is
invoked with row exponent 17 whenever it is reached, even though the
128-byte-message shape declares k = 18 and the 1024-byte-message shape
declares k = 20. -/
theorem mock_prover_capacity_fixed_at_17 {P K V M Pr : Type}
    (B : Backend P K V M Pr) (entropy : Nat) (params pk : List Nat)
    (n e : Nat) (msg sig : List Nat) :
    shape_1024_64.k = 17 ∧ shape_1024_128.k = 18 ∧ shape_1024_1024.k = 20
    ∧ ((prove_pkcs1v15_1024_64_circuit B entropy params pk n e msg sig).selfCheckK = none
       ∨ (prove_pkcs1v15_1024_64_circuit B entropy params pk n e msg sig).selfCheckK = some 17)
    ∧ ((prove_pkcs1v15_1024_128_circuit B entropy params pk n e msg sig).selfCheckK = none
       ∨ (prove_pkcs1v15_1024_128_circuit B entropy params pk n e msg sig).selfCheckK = some 17)
    ∧ ((prove_pkcs1v15_1024_1024_circuit B entropy params pk n e msg sig).selfCheckK = none
       ∨ (prove_pkcs1v15_1024_1024_circuit B entropy params pk n e msg sig).selfCheckK = some 17) :=
  ⟨rfl, rfl, rfl,
   prove_selfCheckK_cases B entropy params pk (pkcs1v15_1024_64_circuit_of n e msg sig),
   prove_selfCheckK_cases B entropy params pk (pkcs1v15_1024_128_circuit_of n e msg sig),
   prove_selfCheckK_cases B entropy params pk (pkcs1v15_1024_1024_circuit_of n e msg sig)⟩

/-- Claim C5: exactly three circuit shapes are instantiated, all with
modulus bit-length 1024 and message lengths 64, 128, 1024 bytes; the
64-byte shape has row capacity 2 ^ 17 and the longer-message shapes
have the strictly larger capacities 2 ^ 18 and 2 ^ 20. -/
theorem three_supported_shapes :
    supportedShapes.length = 3
    ∧ supportedShapes.map CircuitShape.bitsLen = [1024, 1024, 1024]
    ∧ supportedShapes.map CircuitShape.msgLen = [64, 128, 1024]
    ∧ supportedShapes.map CircuitShape.k = [17, 18, 20]
    ∧ 2 ^ shape_1024_64.k = 131072
    ∧ 2 ^ shape_1024_64.k < 2 ^ shape_1024_128.k
    ∧ 2 ^ shape_1024_128.k < 2 ^ shape_1024_1024.k := by
  decide

/-- Claim C6: the instance values handed to the self-check, the backend
prover, and the verifier are a single instance column containing no
values, so no public-input value is exchanged: the key, message, and
signature enter only as private witness fields of the circuit. -/
theorem public_inputs_empty {P K V M Pr : Type}
    (B : Backend P K V M Pr) (entropy : Nat) (params pk vk proof : List Nat)
    (c : Pkcs1v15Circuit) :
    publicInstances.flatten = []
    ∧ ((provePkcs1v15Circuit B entropy params pk c).selfCheckInstances = none
       ∨ (provePkcs1v15Circuit B entropy params pk c).selfCheckInstances = some publicInstances)
    ∧ ((provePkcs1v15Circuit B entropy params pk c).backendInstances = none
       ∨ (provePkcs1v15Circuit B entropy params pk c).backendInstances = some publicInstances)
    ∧ (match B.readParams params, B.readVK vk, B.parseProofBytes proof with
       | Except.ok p, Except.ok v, Except.ok pr =>
          verifyPkcs1v15Circuit B params vk proof
            = VerifyOutcome.returned (B.verifyProof p v publicInstances pr)
       | _, _, _ => True) := by
  refine ⟨rfl, prove_selfCheckInstances_cases B entropy params pk c,
    prove_backendInstances_cases B entropy params pk c, ?_⟩
  rcases hp : B.readParams params with e | p
  · simp
  rcases hv : B.readVK vk with e | v
  · simp
  rcases hpr : B.parseProofBytes proof with e | pr
  · simp
  · simp [verifyPkcs1v15Circuit, hp, hv, hpr]

/-- Claim C8: a parameter or proving-key buffer that fails to parse
makes prove abort with that parse error before the self-check and the
backend are reached, and a parameter, verifying-key, or proof buffer
that fails to parse makes verify raise that parse panic; no guessed or
partially-parsed value is used. -/
theorem malformed_buffers_rejected {P K V M Pr : Type}
    (B : Backend P K V M Pr) (entropy : Nat) (params pk vk proof : List Nat)
    (c : Pkcs1v15Circuit) :
    (match B.readParams params, B.readPK pk with
     | Except.error e, _ =>
        provePkcs1v15Circuit B entropy params pk c
          = ⟨none, none, false, none, Except.error (ProveError.parse e)⟩
     | Except.ok _, Except.error e =>
        provePkcs1v15Circuit B entropy params pk c
          = ⟨none, none, false, none, Except.error (ProveError.parse e)⟩
     | Except.ok _, Except.ok _ => True)
    ∧ (match B.readParams params, B.readVK vk, B.parseProofBytes proof with
       | Except.error e, _, _ =>
          verifyPkcs1v15Circuit B params vk proof = VerifyOutcome.parsePanic e
       | Except.ok _, Except.error e, _ =>
          verifyPkcs1v15Circuit B params vk proof = VerifyOutcome.parsePanic e
       | Except.ok _, Except.ok _, Except.error e =>
          verifyPkcs1v15Circuit B params vk proof = VerifyOutcome.parsePanic e
       | Except.ok _, Except.ok _, Except.ok _ => True) := by
  constructor
  · rcases hp : B.readParams params with e | p
    · exact @prove_parseParams_fail P K V M Pr B entropy params pk c e hp
    rcases hk : B.readPK pk with e | k
    · exact @prove_parsePK_fail P K V M Pr B entropy params pk c p e hp hk
    · simp
  · rcases hp : B.readParams params with e | p
    · simp [verifyPkcs1v15Circuit, hp]
    rcases hv : B.readVK vk with e | v
    · simp [verifyPkcs1v15Circuit, hp, hv]
    rcases hpr : B.parseProofBytes proof with e | pr
    · simp [verifyPkcs1v15Circuit, hp, hv, hpr]
    · simp

/-- Claim C9: the circuits constructed by the three prove entry points
carry the fixed public exponent 65537 (the RSAPubE.Fix path, value
DEFAULT_E), never a variable circuit-value exponent, and the exponent
value parsed from the caller's public key has no effect on the
constructed circuit; each entry point hands exactly this circuit to
the pipeline. -/
theorem fixed_exponent_path {P K V M Pr : Type} (B : Backend P K V M Pr)
    (entropy : Nat) (params pk : List Nat) (n e eOther : Nat)
    (msg sig : List Nat) :
    DEFAULT_E = 65537
    ∧ (pkcs1v15_1024_64_circuit_of n e msg sig).publicKey.e = RSAPubE.Fix 65537
    ∧ (pkcs1v15_1024_128_circuit_of n e msg sig).publicKey.e = RSAPubE.Fix 65537
    ∧ (pkcs1v15_1024_1024_circuit_of n e msg sig).publicKey.e = RSAPubE.Fix 65537
    ∧ pkcs1v15_1024_64_circuit_of n e msg sig = pkcs1v15_1024_64_circuit_of n eOther msg sig
    ∧ pkcs1v15_1024_128_circuit_of n e msg sig = pkcs1v15_1024_128_circuit_of n eOther msg sig
    ∧ pkcs1v15_1024_1024_circuit_of n e msg sig = pkcs1v15_1024_1024_circuit_of n eOther msg sig
    ∧ prove_pkcs1v15_1024_64_circuit B entropy params pk n e msg sig
        = provePkcs1v15Circuit B entropy params pk (pkcs1v15_1024_64_circuit_of n e msg sig)
    ∧ prove_pkcs1v15_1024_128_circuit B entropy params pk n e msg sig
        = provePkcs1v15Circuit B entropy params pk (pkcs1v15_1024_128_circuit_of n e msg sig)
    ∧ prove_pkcs1v15_1024_1024_circuit B entropy params pk n e msg sig
        = provePkcs1v15Circuit B entropy params pk (pkcs1v15_1024_1024_circuit_of n e msg sig) :=
  ⟨rfl, rfl, rfl, rfl, rfl, rfl, rfl, rfl, rfl, rfl⟩

/-- Claim C10: the proof emitted on the success path is exactly
the backend prover's output on the per-call entropy (the binding passes
a fresh OsRng value into create_proof on every call), and there is a
backend for which two calls on identical parameters, proving key, and
witness but different entropy yield different results, so proving is
not a function of the witness alone. -/
theorem prove_randomized :
    (∀ {P K V M Pr : Type} (B : Backend P K V M Pr) (entropy : Nat)
       (params pk : List Nat) (c : Pkcs1v15Circuit) (p : P) (k : K) (m : M),
       B.readParams params = Except.ok p →
       B.readPK pk = Except.ok k →
       B.mockProverRun 17 c publicInstances = Except.ok m →
       B.mockVerify m = Except.ok () →
       (provePkcs1v15Circuit B entropy params pk c).outcome
         = match B.createProof p k c publicInstances entropy with
           | Except.ok pr => Except.ok pr
           | Except.error er => Except.error (ProveError.backend er))
    ∧ ∃ (B : Backend Unit Unit Unit Unit Nat) (e1 e2 : Nat),
        provePkcs1v15Circuit B e1 [] [] exampleCircuit
          ≠ provePkcs1v15Circuit B e2 [] [] exampleCircuit := by
  constructor
  · intro P K V M Pr B entropy params pk c p k m hp hk hm hv
    rw [prove_selfCheck_ok hp hk hm hv]
  · refine ⟨unitOkBackend, 0, 1, ?_⟩
    intro hcontra
    have h0 : (provePkcs1v15Circuit unitOkBackend 0 [] [] exampleCircuit).outcome
        = Except.ok 0 := rfl
    have h1 : (provePkcs1v15Circuit unitOkBackend 1 [] [] exampleCircuit).outcome
        = Except.ok 1 := rfl
    rw [hcontra, h1] at h0
    exact absurd h0 (by decide)

/-- Witness for C10: on the all-succeeding backend whose transcript is
the entropy value, the emitted proof is the per-call entropy. -/
theorem prove_randomized_witness :
    (provePkcs1v15Circuit unitOkBackend 3 [] [] exampleCircuit).outcome = Except.ok 3 :=
  prove_randomized.1 unitOkBackend 3 [] [] exampleCircuit () () () rfl rfl rfl rfl

end Halo2Rsa
